import Mathlib

/-!
Verification of the RajOS task-management subsystem.

This file is a shallow embedding of the task module (`task.c` / `task.h`),
the relevant part of the timer driver (`timer.c`), and the kernel's global
task-registry state.  Machine integers (`uint32_t`) are modelled as `Nat`
with an explicit `% 4294967296` (that is, `% 2 ^ 32`) wherever the C
arithmetic can wrap.  Pointers into the 32 KB task heap are modelled as byte
offsets (`Nat`); nullable pointers are `Option Nat`.  Task control blocks are
records stored in a map from their allocation address, and the raw words
written by the initial stack-frame setup are kept in a separate word memory.
-/

/-- Task states, mirroring the C enumeration `task_state_t` in `task.h`
(INVALID = 0, READY, RUNNING, BLOCKED, SLEEPING, SUSPENDED). -/
inductive task_state where
  | invalid
  | ready
  | running
  | blocked
  | sleeping
  | suspended
  deriving DecidableEq, Repr

/-- Task priorities, mirroring the C enumeration `task_priority_t` in
`task.h` (IDLE = 0, LOW, NORMAL, HIGH, CRITICAL, MAX). -/
inductive task_priority where
  | idle
  | low
  | normal
  | high
  | critical
  | max
  deriving DecidableEq, Repr

/-- Task Control Block, mirroring the C struct `task_tcb_t` in `task.h`.
`stack_ptr`, `stack_start` are byte addresses into the task heap; the
nullable pointers `entry_point` and `next` are `Option Nat`.  The C string
`name[16]` is modelled as the list of characters before the terminator. -/
structure task_tcb where
  task_id : Nat
  name : List Char
  state : task_state
  priority : task_priority
  stack_ptr : Nat
  stack_start : Nat
  stack_size : Nat
  entry_point : Option Nat
  wake_time : Nat
  time_slice : Nat
  time_used : Nat
  next : Option Nat
  context_switches : Nat
  total_runtime : Nat
  deriving DecidableEq, Repr

/-- Minimum stack size, `TASK_MIN_STACK_SIZE` in `task.h` (512 bytes). -/
def TASK_MIN_STACK_SIZE : Nat := 512

/-- Maximum stored name length, `TASK_MAX_NAME_LENGTH` in `task.h`. -/
def TASK_MAX_NAME_LENGTH : Nat := 15

/-- Size of the task heap, `sizeof(task_heap)` in `task.c` (32 KB). -/
def TASK_HEAP_SIZE : Nat := 32768

/-- Size in bytes of `task_tcb_t` on the 32-bit ARM target: thirteen
4-byte fields (ids, enums, pointers, counters) plus the 16-byte name
array, all 4-byte aligned. -/
def TASK_TCB_SIZE : Nat := 68

/-- The kernel's global state: the statics of `task.c` (`next_task_id`,
`task_list`, `current_task`, `heap_ptr`), the heap contents (TCB records
keyed by allocation address, plus raw stack words), and the static
`timer_ticks` counter of `timer.c`. -/
structure KState where
  next_task_id : Nat
  task_list : Option Nat
  current_task : Option Nat
  heap_ptr : Nat
  tcbs : Nat → Option task_tcb
  smem : Nat → Nat
  timer_ticks : Nat

/-- The boot state: statics are zero-initialised, except
`next_task_id = 1`. -/
def initState : KState :=
  { next_task_id := 1
    task_list := none
    current_task := none
    heap_ptr := 0
    tcbs := fun _ => none
    smem := fun _ => 0
    timer_ticks := 0 }

/-- `strncpy_safe(dest, src, n)` from `task.c` copies at most `n`
characters of `src` and null-terminates; on the list model of C strings
this stores the first `n` characters. -/
def strncpy_safe (src : List Char) (n : Nat) : List Char :=
  src.take n

/-- A 4-byte store into the word memory at byte address `a`. -/
def write32 (m : Nat → Nat) (a v : Nat) : Nat → Nat :=
  fun x => if x = a then v else m x

/-- Overwrite the TCB record stored at address `a`. -/
def set_tcb (s : KState) (a : Nat) (t : task_tcb) : KState :=
  { s with tcbs := fun x => if x = a then some t else s.tcbs x }

/-- Read `task->next` through a handle (the C code dereferences without a
null-record check; a dangling handle is modelled as reading no link). -/
def tcb_next (s : KState) (a : Nat) : Option Nat :=
  match s.tcbs a with
  | some t => t.next
  | none => none

/-- `task_malloc(size)` from `task.c`: a bump allocator over the 32 KB
`task_heap`.  The bounds check `heap_ptr + size > sizeof(task_heap)` is
`uint32_t` arithmetic, hence the explicit wrap. -/
def task_malloc (s : KState) (size : Nat) : Option (Nat × KState) :=
  if (s.heap_ptr + size) % 4294967296 > TASK_HEAP_SIZE then
    none
  else
    some (s.heap_ptr, { s with heap_ptr := (s.heap_ptr + size) % 4294967296 })

/-- `task_create(name, entry_point, priority, stack_size)` from `task.c`.
Returns the handle (null on failure) and the updated kernel state.
Mirrors the source order: validate, allocate the TCB, allocate the stack,
assign `next_task_id++`, fill the TCB, write the synthetic initial stack
frame, and push the TCB onto the head of `task_list`. -/
def task_create (s : KState) (name : Option (List Char)) (entry : Option Nat)
    (priority : task_priority) (stack_size : Nat) : Option Nat × KState :=
  if entry = none ∨ name = none ∨ stack_size < TASK_MIN_STACK_SIZE then
    (none, s)
  else
    match task_malloc s TASK_TCB_SIZE with
    | none => (none, s)
    | some (tcbAddr, s1) =>
      match task_malloc s1 stack_size with
      | none => (none, s1)
      | some (stackAddr, s2) =>
        let sp0 := stackAddr + 4 * (stack_size / 4 - 1)
        let tcb : task_tcb :=
          { task_id := s2.next_task_id
            name := strncpy_safe (name.getD []) TASK_MAX_NAME_LENGTH
            state := task_state.ready
            priority := priority
            stack_ptr := sp0 - 28
            stack_start := stackAddr
            stack_size := stack_size
            entry_point := entry
            wake_time := 0
            time_slice := 10
            time_used := 0
            next := s2.task_list
            context_switches := 0
            total_runtime := 0 }
        let m1 := write32 s2.smem sp0 16777216
        let m2 := write32 m1 (sp0 - 4) (entry.getD 0)
        let m3 := write32 m2 (sp0 - 8) 4294967293
        let m4 := write32 m3 (sp0 - 12) 0
        let m5 := write32 m4 (sp0 - 16) 0
        let m6 := write32 m5 (sp0 - 20) 0
        let m7 := write32 m6 (sp0 - 24) 0
        let m8 := write32 m7 (sp0 - 28) 0
        (some tcbAddr,
          { s2 with
            next_task_id := (s2.next_task_id + 1) % 4294967296
            tcbs := fun a => if a = tcbAddr then some tcb else s2.tcbs a
            smem := m8
            task_list := some tcbAddr })

/-- The `prev` search loop of `task_delete`: walk the `next` chain from
`prev` looking for the node whose `next` is the target.  The C loop has no
termination guarantee on corrupted lists, so the model carries fuel; the
fuel bound exceeds any reachable list length. -/
def find_prev (s : KState) (target : Nat) : Option Nat → Nat → Option Nat
  | none, _ => none
  | some _, 0 => none
  | some p, fuel + 1 =>
    match s.tcbs p with
    | none => none
    | some t =>
      if t.next = some target then some p
      else find_prev s target t.next fuel

/-- The unlink block of `task_delete`: remove the node from the head of
`task_list`, or splice it out through the predecessor found by the `prev`
walk; nothing is unlinked when the walk finds no predecessor. -/
def unlink_task (s : KState) (a : Nat) : KState :=
  if s.task_list = some a then
    { s with task_list := tcb_next s a }
  else
    match find_prev s a s.task_list TASK_HEAP_SIZE with
    | some p =>
      match s.tcbs p with
      | some pt => set_tcb s p { pt with next := tcb_next s a }
      | none => s
    | none => s

/-- `task_delete(task)` from `task.c`: no-op on a null handle; otherwise
unlink from `task_list` and then mark the task `TASK_STATE_INVALID`.  The
memory is not returned to the allocator (the source comment: in a real
system we would free it). -/
def task_delete (s : KState) (task : Option Nat) : KState :=
  match task with
  | none => s
  | some a =>
    let s1 := unlink_task s a
    match s1.tcbs a with
    | some t => set_tcb s1 a { t with state := task_state.invalid }
    | none => s1

/-- `task_suspend(task)` from `task.c`: returns early on a null handle or
an INVALID task; only a RUNNING task is moved to SUSPENDED. -/
def task_suspend (s : KState) (task : Option Nat) : KState :=
  match task with
  | none => s
  | some a =>
    match s.tcbs a with
    | none => s
    | some t =>
      if t.state = task_state.invalid then s
      else if t.state = task_state.running then
        set_tcb s a { t with state := task_state.suspended }
      else s

/-- `task_resume(task)` from `task.c`: returns early unless the task is
SUSPENDED; a suspended task is moved to READY. -/
def task_resume (s : KState) (task : Option Nat) : KState :=
  match task with
  | none => s
  | some a =>
    match s.tcbs a with
    | none => s
    | some t =>
      if t.state = task_state.suspended then
        set_tcb s a { t with state := task_state.ready }
      else s

/-- `task_sleep(milliseconds)` from `task.c`: no-op when there is no
current task; otherwise marks the current task SLEEPING and performs
`wake_time = wake_time + milliseconds` in `uint32_t` arithmetic.  Note the
source adds to the old `wake_time`, it never reads the timer. -/
def task_sleep (s : KState) (milliseconds : Nat) : KState :=
  match s.current_task with
  | none => s
  | some a =>
    match s.tcbs a with
    | none => s
    | some t =>
      set_tcb s a
        { t with
          state := task_state.sleeping
          wake_time := (t.wake_time + milliseconds) % 4294967296 }

/-- `task_yield()` from `task.c`: no-op when there is no current task;
otherwise unconditionally sets the current task's state to READY. -/
def task_yield (s : KState) : KState :=
  match s.current_task with
  | none => s
  | some a =>
    match s.tcbs a with
    | none => s
    | some t => set_tcb s a { t with state := task_state.ready }

/-- `task_get_state(task)` from `task.c`: `task ? task->state :
TASK_STATE_INVALID`. -/
def task_get_state (s : KState) (task : Option Nat) : task_state :=
  match task with
  | none => task_state.invalid
  | some a =>
    match s.tcbs a with
    | none => task_state.invalid
    | some t => t.state

/-- `task_get_priority(task)` from `task.c`: `task ? task->priority :
TASK_PRIORITY_IDLE`. -/
def task_get_priority (s : KState) (task : Option Nat) : task_priority :=
  match task with
  | none => task_priority.idle
  | some a =>
    match s.tcbs a with
    | none => task_priority.idle
    | some t => t.priority

/-- `task_get_id(task)` from `task.c`: `task ? task->task_id : 0`. -/
def task_get_id (s : KState) (task : Option Nat) : Nat :=
  match task with
  | none => 0
  | some a =>
    match s.tcbs a with
    | none => 0
    | some t => t.task_id

/-- `task_get_current()` from `task.c`. -/
def task_get_current (s : KState) : Option Nat :=
  s.current_task

/-- `task_set_current(task)` from `task.c`. -/
def task_set_current (s : KState) (task : Option Nat) : KState :=
  { s with current_task := task }

/-- `timer_get_ticks()` from `timer.c`: returns the static tick counter
(the spec's `now_ticks()`). -/
def timer_get_ticks (s : KState) : Nat :=
  s.timer_ticks

/-- `timer_tick_callback()` from `timer.c`: increments the `uint32_t` tick
counter.  It touches no task state. -/
def timer_tick_callback (s : KState) : KState :=
  { s with timer_ticks := (s.timer_ticks + 1) % 4294967296 }

/-- One externally invokable operation of the task/timer modules, used to
quantify over arbitrary call sequences. -/
inductive Op where
  | create (name : Option (List Char)) (entry : Option Nat)
      (priority : task_priority) (stack_size : Nat)
  | delete (task : Option Nat)
  | suspend (task : Option Nat)
  | resume (task : Option Nat)
  | sleep (milliseconds : Nat)
  | yield
  | set_current (task : Option Nat)
  | tick

/-- Execute one operation on the kernel state. -/
def step (s : KState) (op : Op) : KState :=
  match op with
  | Op.create name entry priority stack_size =>
    (task_create s name entry priority stack_size).2
  | Op.delete task => task_delete s task
  | Op.suspend task => task_suspend s task
  | Op.resume task => task_resume s task
  | Op.sleep ms => task_sleep s ms
  | Op.yield => task_yield s
  | Op.set_current task => task_set_current s task
  | Op.tick => timer_tick_callback s

/-- Execute a sequence of operations. -/
def run (s : KState) (ops : List Op) : KState :=
  ops.foldl step s

/-- The ids handed out by the successful `task_create` calls of an
operation sequence, in creation order, read back from the TCB the
returned handle points at. -/
def created_ids (s : KState) : List Op → List Nat
  | [] => []
  | op :: rest =>
    match op with
    | Op.create name entry priority stack_size =>
      match task_create s name entry priority stack_size with
      | (some a, s') =>
        (match s'.tcbs a with
         | some t => [t.task_id]
         | none => []) ++ created_ids s' rest
      | (none, s') => created_ids s' rest
    | _ => created_ids (step s op) rest

/-- A create request whose `uint32_t` size cannot wrap the allocator's
bounds check (`heap_ptr + size` stays below `2 ^ 32`); such a wrap would
also make the C stack-frame initialisation write far out of bounds
(undefined behaviour). -/
def op_size_ok : Op → Bool
  | Op.create _ _ _ stack_size => stack_size + TASK_HEAP_SIZE < 4294967296
  | _ => true

/-- A concrete TCB for test states: one 512-byte stack task as
`task_create` would lay it out at heap offset 0. -/
def mk_tcb (id : Nat) (st : task_state) (pr : task_priority) (wake : Nat) :
    task_tcb :=
  { task_id := id
    name := []
    state := st
    priority := pr
    stack_ptr := 552
    stack_start := 68
    stack_size := 512
    entry_point := some 100
    wake_time := wake
    time_slice := 10
    time_used := 0
    next := none
    context_switches := 0
    total_runtime := 0 }

/-- A concrete kernel state holding exactly one task (at address 0). -/
def one_task_kstate (t : task_tcb) (cur : Option Nat) (ticks : Nat) : KState :=
  { next_task_id := t.task_id + 1
    task_list := some 0
    current_task := cur
    heap_ptr := 580
    tcbs := fun a => if a = 0 then some t else none
    smem := fun _ => 0
    timer_ticks := ticks }

/-- Operation sequence that exhausts the 32 KB heap with four tasks
(each consumes a 68-byte TCB plus an 8124-byte stack, 8192 bytes total)
and then deletes all four. -/
def c6_ops : List Op :=
  [Op.create (some [Char.ofNat 97]) (some 100) task_priority.normal 8124,
   Op.create (some [Char.ofNat 98]) (some 100) task_priority.normal 8124,
   Op.create (some [Char.ofNat 99]) (some 100) task_priority.normal 8124,
   Op.create (some [Char.ofNat 100]) (some 100) task_priority.normal 8124,
   Op.delete (some 24576),
   Op.delete (some 16384),
   Op.delete (some 8192),
   Op.delete (some 0)]

/-- Operation sequence with creations interleaved with a deletion, used to
witness the id-uniqueness theorem. -/
def c5_ops : List Op :=
  [Op.create (some [Char.ofNat 97]) (some 100) task_priority.normal 512,
   Op.create (some [Char.ofNat 98]) (some 100) task_priority.high 600,
   Op.delete (some 0),
   Op.create (some [Char.ofNat 99]) (some 100) task_priority.low 512]

/-- C1: the claim says `sleep(duration)` records
`wake_time = now_ticks() + duration`; the source instead performs
`wake_time = wake_time + milliseconds` and never reads the timer.  At a
state whose tick counter is 5 and whose running current task has
`wake_time = 0`, `task_sleep 10` marks the task Sleeping but stores
`wake_time = 10`, not `now_ticks() + 10 = 15`. -/
theorem c1_sleep_ignores_timer :
    (task_sleep (one_task_kstate (mk_tcb 1 task_state.running
        task_priority.normal 0) (some 0) 5) 10).tcbs 0 =
      some { mk_tcb 1 task_state.running task_priority.normal 0 with
              state := task_state.sleeping, wake_time := 10 } ∧
    timer_get_ticks (one_task_kstate (mk_tcb 1 task_state.running
        task_priority.normal 0) (some 0) 5) + 10 = 15 ∧
    (10 : Nat) ≠ 15 := by
  refine ⟨by decide, by decide, by decide⟩

/-- C9: the claim says `sleep(0)` is equivalent to an immediate yield and
the task is Ready again on the next tick.  In the source, `task_sleep 0`
marks the current task Sleeping while `task_yield` marks it Ready, and the
timer tick callback touches no task state, so the sleeper is still
Sleeping after the next tick. -/
theorem c9_sleep_zero_differs_from_yield :
    task_get_state (task_sleep (one_task_kstate (mk_tcb 1 task_state.running
        task_priority.normal 0) (some 0) 0) 0) (some 0) = task_state.sleeping ∧
    task_get_state (task_yield (one_task_kstate (mk_tcb 1 task_state.running
        task_priority.normal 0) (some 0) 0)) (some 0) = task_state.ready ∧
    task_state.sleeping ≠ task_state.ready ∧
    task_get_state (timer_tick_callback (task_sleep (one_task_kstate
        (mk_tcb 1 task_state.running task_priority.normal 0) (some 0) 0) 0))
      (some 0) = task_state.sleeping := by
  refine ⟨by decide, by decide, by decide, by decide⟩

/-- C7 counterexample: the claim says a Ready task becomes Suspended when
`suspend` is called on it; in the source `task_suspend` only acts on a
RUNNING task, so suspending this Ready task leaves the state unchanged. -/
theorem c7_ready_task_not_suspended :
    task_suspend (one_task_kstate (mk_tcb 1 task_state.ready
        task_priority.normal 0) none 0) (some 0) =
      one_task_kstate (mk_tcb 1 task_state.ready task_priority.normal 0) none 0 ∧
    task_get_state (one_task_kstate (mk_tcb 1 task_state.ready
        task_priority.normal 0) none 0) (some 0) = task_state.ready ∧
    task_state.ready ≠ task_state.suspended :=
  ⟨rfl, rfl, by decide⟩

/-- C7 (amended): `task_suspend` moves a RUNNING task to SUSPENDED and is
a no-op on a task in any other state, including READY. -/
theorem c7_suspend_only_running (s : KState) (a : Nat) (t : task_tcb)
    (h : s.tcbs a = some t) :
    (t.state = task_state.running →
      (task_suspend s (some a)).tcbs a =
        some { t with state := task_state.suspended }) ∧
    (t.state ≠ task_state.running → task_suspend s (some a) = s) := by
  constructor
  · intro hst
    simp [task_suspend, h, hst, set_tcb]
  · intro hst
    by_cases hinv : t.state = task_state.invalid
    · simp [task_suspend, h, hinv]
    · simp [task_suspend, h, hinv, hst]

/-- Witness for the amended C7 theorem at a concrete running task. -/
theorem c7_suspend_only_running_witness :
    (one_task_kstate (mk_tcb 1 task_state.running task_priority.normal 0)
      (some 0) 0).tcbs 0 =
        some (mk_tcb 1 task_state.running task_priority.normal 0) ∧
    (((mk_tcb 1 task_state.running task_priority.normal 0).state =
        task_state.running →
      (task_suspend (one_task_kstate (mk_tcb 1 task_state.running
          task_priority.normal 0) (some 0) 0) (some 0)).tcbs 0 =
        some { mk_tcb 1 task_state.running task_priority.normal 0 with
                state := task_state.suspended }) ∧
     ((mk_tcb 1 task_state.running task_priority.normal 0).state ≠
        task_state.running →
      task_suspend (one_task_kstate (mk_tcb 1 task_state.running
          task_priority.normal 0) (some 0) 0) (some 0) =
        one_task_kstate (mk_tcb 1 task_state.running task_priority.normal 0)
          (some 0) 0)) :=
  ⟨rfl, c7_suspend_only_running _ 0 _ rfl⟩

/-- C8: `task_resume` moves a SUSPENDED task to READY (never to RUNNING),
is a no-op on a task in any other state, and on a null handle. -/
theorem c8_resume_semantics (s : KState) (a : Nat) (t : task_tcb)
    (h : s.tcbs a = some t) :
    (t.state = task_state.suspended →
      (task_resume s (some a)).tcbs a =
        some { t with state := task_state.ready }) ∧
    (t.state ≠ task_state.suspended → task_resume s (some a) = s) ∧
    task_resume s none = s := by
  refine ⟨?_, ?_, rfl⟩
  · intro hst
    simp [task_resume, h, hst, set_tcb]
  · intro hst
    simp [task_resume, h, hst]

/-- Witness for C8 at a concrete suspended task. -/
theorem c8_resume_semantics_witness :
    (one_task_kstate (mk_tcb 3 task_state.suspended task_priority.high 0)
      none 0).tcbs 0 =
        some (mk_tcb 3 task_state.suspended task_priority.high 0) ∧
    (((mk_tcb 3 task_state.suspended task_priority.high 0).state =
        task_state.suspended →
      (task_resume (one_task_kstate (mk_tcb 3 task_state.suspended
          task_priority.high 0) none 0) (some 0)).tcbs 0 =
        some { mk_tcb 3 task_state.suspended task_priority.high 0 with
                state := task_state.ready }) ∧
     ((mk_tcb 3 task_state.suspended task_priority.high 0).state ≠
        task_state.suspended →
      task_resume (one_task_kstate (mk_tcb 3 task_state.suspended
          task_priority.high 0) none 0) (some 0) =
        one_task_kstate (mk_tcb 3 task_state.suspended task_priority.high 0)
          none 0) ∧
     task_resume (one_task_kstate (mk_tcb 3 task_state.suspended
        task_priority.high 0) none 0) none =
       one_task_kstate (mk_tcb 3 task_state.suspended task_priority.high 0)
         none 0) :=
  ⟨rfl, c8_resume_semantics _ 0 _ rfl⟩

/-- C10: `task_yield` unconditionally forces the current task's state to
READY whatever state it was in, and is a no-op exactly when no current
task is set. -/
theorem c10_yield_forces_ready (s : KState) (a : Nat) (t : task_tcb)
    (hc : s.current_task = some a) (h : s.tcbs a = some t) :
    (task_yield s).tcbs a = some { t with state := task_state.ready } ∧
    (∀ s2 : KState, s2.current_task = none → task_yield s2 = s2) := by
  constructor
  · simp [task_yield, hc, h, set_tcb]
  · intro s2 h2
    simp [task_yield, h2]

/-- Witness for C10 at a concrete sleeping current task, which yield
forces back to READY. -/
theorem c10_yield_forces_ready_witness :
    (one_task_kstate (mk_tcb 2 task_state.sleeping task_priority.low 42)
      (some 0) 0).current_task = some 0 ∧
    (one_task_kstate (mk_tcb 2 task_state.sleeping task_priority.low 42)
      (some 0) 0).tcbs 0 =
        some (mk_tcb 2 task_state.sleeping task_priority.low 42) ∧
    ((task_yield (one_task_kstate (mk_tcb 2 task_state.sleeping
        task_priority.low 42) (some 0) 0)).tcbs 0 =
      some { mk_tcb 2 task_state.sleeping task_priority.low 42 with
              state := task_state.ready } ∧
     (∀ s2 : KState, s2.current_task = none → task_yield s2 = s2)) :=
  ⟨rfl, rfl, c10_yield_forces_ready _ 0 _ rfl rfl⟩

lemma unlink_task_tcb (s : KState) (a : Nat) (t : task_tcb)
    (h : s.tcbs a = some t) :
    (unlink_task s a).tcbs a = some t := by
  unfold unlink_task
  split
  · exact h
  · split
    · next p hp =>
      split
      · next pt hpt =>
        by_cases hap : a = p
        · subst hap
          rw [h] at hpt
          injection hpt with hpt'
          subst hpt'
          simp [set_tcb, tcb_next, h]
        · simp [set_tcb, hap, h]
      · exact h
    · exact h

lemma task_delete_marks_invalid (s : KState) (a : Nat) (t : task_tcb)
    (h : s.tcbs a = some t) :
    (task_delete s (some a)).tcbs a =
      some { t with state := task_state.invalid } := by
  have h1 := unlink_task_tcb s a t h
  unfold task_delete
  simp only [h1]
  simp [set_tcb]

/-- C2 counterexample: the claim says `get_priority` and `get_id` return
their sentinel values (priority IDLE, id 0) after a delete; the source
queries dereference the still-valid handle and return the stored values,
here priority HIGH and id 7. -/
theorem c2_deleted_handle_keeps_stored_values :
    task_get_id (task_delete (one_task_kstate
        (mk_tcb 7 task_state.ready task_priority.high 0) none 0) (some 0))
      (some 0) = 7 ∧
    (7 : Nat) ≠ 0 ∧
    task_get_priority (task_delete (one_task_kstate
        (mk_tcb 7 task_state.ready task_priority.high 0) none 0) (some 0))
      (some 0) = task_priority.high ∧
    task_priority.high ≠ task_priority.idle := by
  refine ⟨by decide, by decide, by decide, by decide⟩

/-- C2 (amended): after `delete(handle)` no query crashes and `get_state`
returns the invalid/terminated sentinel, but `get_priority` and `get_id`
return the task's stored priority and id; the sentinel values (IDLE, 0)
are returned only for a null handle. -/
theorem c2_delete_then_query (s : KState) (a : Nat) (t : task_tcb)
    (h : s.tcbs a = some t) :
    task_get_state (task_delete s (some a)) (some a) = task_state.invalid ∧
    task_get_priority (task_delete s (some a)) (some a) = t.priority ∧
    task_get_id (task_delete s (some a)) (some a) = t.task_id ∧
    task_get_state s none = task_state.invalid ∧
    task_get_priority s none = task_priority.idle ∧
    task_get_id s none = 0 := by
  have hd := task_delete_marks_invalid s a t h
  refine ⟨?_, ?_, ?_, rfl, rfl, rfl⟩
  · simp [task_get_state, hd]
  · simp [task_get_priority, hd]
  · simp [task_get_id, hd]

/-- Witness for the amended C2 theorem at a concrete one-task state. -/
theorem c2_delete_then_query_witness :
    (one_task_kstate (mk_tcb 7 task_state.ready task_priority.high 0)
        none 0).tcbs 0 =
      some (mk_tcb 7 task_state.ready task_priority.high 0) ∧
    (task_get_state (task_delete (one_task_kstate
        (mk_tcb 7 task_state.ready task_priority.high 0) none 0) (some 0))
        (some 0) = task_state.invalid ∧
     task_get_priority (task_delete (one_task_kstate
        (mk_tcb 7 task_state.ready task_priority.high 0) none 0) (some 0))
        (some 0) = (mk_tcb 7 task_state.ready task_priority.high 0).priority ∧
     task_get_id (task_delete (one_task_kstate
        (mk_tcb 7 task_state.ready task_priority.high 0) none 0) (some 0))
        (some 0) = (mk_tcb 7 task_state.ready task_priority.high 0).task_id ∧
     task_get_state (one_task_kstate
        (mk_tcb 7 task_state.ready task_priority.high 0) none 0) none =
       task_state.invalid ∧
     task_get_priority (one_task_kstate
        (mk_tcb 7 task_state.ready task_priority.high 0) none 0) none =
       task_priority.idle ∧
     task_get_id (one_task_kstate
        (mk_tcb 7 task_state.ready task_priority.high 0) none 0) none = 0) :=
  ⟨rfl, c2_delete_then_query _ 0 _ rfl⟩

/-- C3 counterexample: the claim says a create call with an empty
(zero-length) name string fails; the source only checks the name pointer
for null, so an empty but non-null name is accepted and the create
succeeds. -/
theorem c3_empty_name_accepted :
    (task_create initState (some []) (some 100)
        task_priority.normal 512).1 = some 0 ∧
    some 0 ≠ (none : Option Nat) :=
  ⟨by decide, by decide⟩

/-- C3 (amended): `task_create` returns the null handle exactly when the
entry pointer is null, the name pointer is null (an empty but non-null
name is accepted), the stack size is below the 512-byte floor, or one of
the two heap allocations fails the 32 KB bound. -/
theorem c3_create_failure_condition (s : KState) (name : Option (List Char))
    (entry : Option Nat) (priority : task_priority) (stack_size : Nat) :
    (task_create s name entry priority stack_size).1 = none ↔
      (entry = none ∨ name = none ∨ stack_size < TASK_MIN_STACK_SIZE ∨
       (s.heap_ptr + TASK_TCB_SIZE) % 4294967296 > TASK_HEAP_SIZE ∨
       (((s.heap_ptr + TASK_TCB_SIZE) % 4294967296) + stack_size) %
           4294967296 > TASK_HEAP_SIZE) := by
  by_cases hval : entry = none ∨ name = none ∨
      stack_size < TASK_MIN_STACK_SIZE
  · have hfail : (task_create s name entry priority stack_size).1 = none := by
      unfold task_create
      rw [if_pos hval]
    refine ⟨fun _ => ?_, fun _ => hfail⟩
    tauto
  · by_cases h1 : (s.heap_ptr + TASK_TCB_SIZE) % 4294967296 > TASK_HEAP_SIZE
    · have hm1 : task_malloc s TASK_TCB_SIZE = none := by
        unfold task_malloc
        rw [if_pos h1]
      have hfail : (task_create s name entry priority stack_size).1 = none := by
        unfold task_create
        rw [if_neg hval, hm1]
      exact ⟨fun _ => Or.inr (Or.inr (Or.inr (Or.inl h1))), fun _ => hfail⟩
    · have hm1 : task_malloc s TASK_TCB_SIZE =
          some (s.heap_ptr,
            { s with heap_ptr := (s.heap_ptr + TASK_TCB_SIZE) % 4294967296 }) := by
        unfold task_malloc
        rw [if_neg h1]
      by_cases h2 : (((s.heap_ptr + TASK_TCB_SIZE) % 4294967296) +
          stack_size) % 4294967296 > TASK_HEAP_SIZE
      · have hm2 : task_malloc
            { s with heap_ptr := (s.heap_ptr + TASK_TCB_SIZE) % 4294967296 }
            stack_size = none := by
          unfold task_malloc
          exact if_pos h2
        have hfail : (task_create s name entry priority stack_size).1 =
            none := by
          unfold task_create
          rw [if_neg hval, hm1]
          simp only []
          rw [hm2]
        exact ⟨fun _ => Or.inr (Or.inr (Or.inr (Or.inr h2))), fun _ => hfail⟩
      · have hm2 : task_malloc
            { s with heap_ptr := (s.heap_ptr + TASK_TCB_SIZE) % 4294967296 }
            stack_size =
            some ((s.heap_ptr + TASK_TCB_SIZE) % 4294967296,
              { s with heap_ptr := (((s.heap_ptr + TASK_TCB_SIZE) %
                  4294967296) + stack_size) % 4294967296 }) := by
          unfold task_malloc
          exact if_neg h2
        have hsucc : ¬ (task_create s name entry priority stack_size).1 =
            none := by
          unfold task_create
          rw [if_neg hval, hm1]
          simp only []
          rw [hm2]
          simp
        refine ⟨fun hx => absurd hx hsucc, fun hor => ?_⟩
        exfalso
        rcases hor with he | hn | hsz | hh1 | hh2
        · exact hval (Or.inl he)
        · exact hval (Or.inr (Or.inl hn))
        · exact hval (Or.inr (Or.inr hsz))
        · exact h1 hh1
        · exact h2 hh2

lemma task_create_fail_spec (s : KState) (name : Option (List Char))
    (entry : Option Nat) (priority : task_priority) (stack_size : Nat)
    (s' : KState)
    (h : task_create s name entry priority stack_size = (none, s')) :
    s'.next_task_id = s.next_task_id ∧ s'.task_list = s.task_list ∧
    s'.tcbs = s.tcbs ∧ s'.current_task = s.current_task ∧
    s'.timer_ticks = s.timer_ticks ∧
    (s'.heap_ptr = s.heap_ptr ∨
      ((s.heap_ptr + TASK_TCB_SIZE) % 4294967296 ≤ TASK_HEAP_SIZE ∧
       s'.heap_ptr = (s.heap_ptr + TASK_TCB_SIZE) % 4294967296)) := by
  by_cases hval : entry = none ∨ name = none ∨
      stack_size < TASK_MIN_STACK_SIZE
  · unfold task_create at h
    rw [if_pos hval] at h
    injection h with _ hs
    subst hs
    exact ⟨rfl, rfl, rfl, rfl, rfl, Or.inl rfl⟩
  · by_cases h1 : (s.heap_ptr + TASK_TCB_SIZE) % 4294967296 > TASK_HEAP_SIZE
    · have hm1 : task_malloc s TASK_TCB_SIZE = none := by
        unfold task_malloc
        exact if_pos h1
      unfold task_create at h
      rw [if_neg hval, hm1] at h
      injection h with _ hs
      subst hs
      exact ⟨rfl, rfl, rfl, rfl, rfl, Or.inl rfl⟩
    · have hm1 : task_malloc s TASK_TCB_SIZE =
          some (s.heap_ptr,
            { s with heap_ptr := (s.heap_ptr + TASK_TCB_SIZE) % 4294967296 }) := by
        unfold task_malloc
        exact if_neg h1
      by_cases h2 : (((s.heap_ptr + TASK_TCB_SIZE) % 4294967296) +
          stack_size) % 4294967296 > TASK_HEAP_SIZE
      · have hm2 : task_malloc
            { s with heap_ptr := (s.heap_ptr + TASK_TCB_SIZE) % 4294967296 }
            stack_size = none := by
          unfold task_malloc
          exact if_pos h2
        unfold task_create at h
        rw [if_neg hval, hm1] at h
        simp only [] at h
        rw [hm2] at h
        injection h with _ hs
        subst hs
        refine ⟨rfl, rfl, rfl, rfl, rfl, Or.inr ⟨by omega, rfl⟩⟩
      · have hm2 : task_malloc
            { s with heap_ptr := (s.heap_ptr + TASK_TCB_SIZE) % 4294967296 }
            stack_size =
            some ((s.heap_ptr + TASK_TCB_SIZE) % 4294967296,
              { s with heap_ptr := (((s.heap_ptr + TASK_TCB_SIZE) %
                  4294967296) + stack_size) % 4294967296 }) := by
          unfold task_malloc
          exact if_neg h2
        unfold task_create at h
        rw [if_neg hval, hm1] at h
        simp only [] at h
        rw [hm2] at h
        simp at h

/-- C4: whenever `task_create` fails — bad arguments or either allocation
failing — the caller gets the null handle and the registry is unchanged:
the task list head, the whole TCB store, the id counter and the current
task are exactly as before the call. -/
theorem c4_failed_create_preserves_registry (s : KState)
    (name : Option (List Char)) (entry : Option Nat)
    (priority : task_priority) (stack_size : Nat)
    (h : (task_create s name entry priority stack_size).1 = none) :
    (task_create s name entry priority stack_size).2.task_list =
      s.task_list ∧
    (task_create s name entry priority stack_size).2.tcbs = s.tcbs ∧
    (task_create s name entry priority stack_size).2.next_task_id =
      s.next_task_id ∧
    (task_create s name entry priority stack_size).2.current_task =
      s.current_task := by
  have heq : task_create s name entry priority stack_size =
      (none, (task_create s name entry priority stack_size).2) := by
    rw [← h]
  obtain ⟨h1, h2, h3, h4, _, _⟩ :=
    task_create_fail_spec s name entry priority stack_size _ heq
  exact ⟨h2, h3, h1, h4⟩

/-- Witness for C4: a create request with a 100-byte stack (below the
512-byte floor) fails and leaves the boot registry untouched. -/
theorem c4_failed_create_preserves_registry_witness :
    (task_create initState (some [Char.ofNat 97]) (some 100)
        task_priority.normal 100).1 = none ∧
    ((task_create initState (some [Char.ofNat 97]) (some 100)
        task_priority.normal 100).2.task_list = initState.task_list ∧
     (task_create initState (some [Char.ofNat 97]) (some 100)
        task_priority.normal 100).2.tcbs = initState.tcbs ∧
     (task_create initState (some [Char.ofNat 97]) (some 100)
        task_priority.normal 100).2.next_task_id = initState.next_task_id ∧
     (task_create initState (some [Char.ofNat 97]) (some 100)
        task_priority.normal 100).2.current_task = initState.current_task) :=
  ⟨by decide, c4_failed_create_preserves_registry _ _ _ _ _ (by decide)⟩

/-- C6: the claim says `delete` returns the stack/TCB memory for reuse so
a later same-size create can succeed.  In the source the bump allocator
never frees: after four 8192-byte tasks exhaust the 32 KB heap and all
four are deleted (unlinked and marked invalid), `heap_ptr` still sits at
the heap end and one more same-size create fails. -/
theorem c6_deleted_memory_not_reused :
    task_get_state (run initState c6_ops) (some 0) = task_state.invalid ∧
    task_get_state (run initState c6_ops) (some 8192) = task_state.invalid ∧
    task_get_state (run initState c6_ops) (some 16384) =
      task_state.invalid ∧
    task_get_state (run initState c6_ops) (some 24576) =
      task_state.invalid ∧
    (run initState c6_ops).task_list = none ∧
    (run initState c6_ops).heap_ptr = TASK_HEAP_SIZE ∧
    (task_create (run initState c6_ops) (some [Char.ofNat 101]) (some 100)
        task_priority.normal 8124).1 = none := by
  refine ⟨by decide, by decide, by decide, by decide, by decide, by decide,
    by decide⟩

lemma task_create_success_spec (s : KState) (name : Option (List Char))
    (entry : Option Nat) (priority : task_priority) (stack_size : Nat)
    (a : Nat) (s' : KState)
    (h : task_create s name entry priority stack_size = (some a, s')) :
    TASK_MIN_STACK_SIZE ≤ stack_size ∧
    (s.heap_ptr + TASK_TCB_SIZE) % 4294967296 ≤ TASK_HEAP_SIZE ∧
    s'.heap_ptr = (((s.heap_ptr + TASK_TCB_SIZE) % 4294967296) +
      stack_size) % 4294967296 ∧
    s'.heap_ptr ≤ TASK_HEAP_SIZE ∧
    s'.next_task_id = (s.next_task_id + 1) % 4294967296 ∧
    Option.map task_tcb.task_id (s'.tcbs a) = some s.next_task_id := by
  by_cases hval : entry = none ∨ name = none ∨
      stack_size < TASK_MIN_STACK_SIZE
  · unfold task_create at h
    rw [if_pos hval] at h
    simp at h
  · by_cases h1 : (s.heap_ptr + TASK_TCB_SIZE) % 4294967296 > TASK_HEAP_SIZE
    · have hm1 : task_malloc s TASK_TCB_SIZE = none := by
        unfold task_malloc
        exact if_pos h1
      unfold task_create at h
      rw [if_neg hval, hm1] at h
      simp at h
    · have hm1 : task_malloc s TASK_TCB_SIZE =
          some (s.heap_ptr,
            { s with heap_ptr := (s.heap_ptr + TASK_TCB_SIZE) % 4294967296 }) := by
        unfold task_malloc
        exact if_neg h1
      by_cases h2 : (((s.heap_ptr + TASK_TCB_SIZE) % 4294967296) +
          stack_size) % 4294967296 > TASK_HEAP_SIZE
      · have hm2 : task_malloc
            { s with heap_ptr := (s.heap_ptr + TASK_TCB_SIZE) % 4294967296 }
            stack_size = none := by
          unfold task_malloc
          exact if_pos h2
        unfold task_create at h
        rw [if_neg hval, hm1] at h
        simp only [] at h
        rw [hm2] at h
        simp at h
      · have hm2 : task_malloc
            { s with heap_ptr := (s.heap_ptr + TASK_TCB_SIZE) % 4294967296 }
            stack_size =
            some ((s.heap_ptr + TASK_TCB_SIZE) % 4294967296,
              { s with heap_ptr := (((s.heap_ptr + TASK_TCB_SIZE) %
                  4294967296) + stack_size) % 4294967296 }) := by
          unfold task_malloc
          exact if_neg h2
        unfold task_create at h
        rw [if_neg hval, hm1] at h
        simp only [] at h
        rw [hm2] at h
        simp only [] at h
        injection h with ha hs
        injection ha with ha2
        subst ha2
        subst hs
        refine ⟨Nat.le_of_not_lt fun hc => hval (Or.inr (Or.inr hc)),
          Nat.le_of_not_lt h1, rfl, Nat.le_of_not_lt h2, rfl, ?_⟩
        simp

lemma unlink_task_counters (s : KState) (a : Nat) :
    (unlink_task s a).next_task_id = s.next_task_id ∧
    (unlink_task s a).heap_ptr = s.heap_ptr := by
  unfold unlink_task
  split
  · exact ⟨rfl, rfl⟩
  · split
    · split
      · exact ⟨rfl, rfl⟩
      · exact ⟨rfl, rfl⟩
    · exact ⟨rfl, rfl⟩

lemma task_delete_counters (s : KState) (task : Option Nat) :
    (task_delete s task).next_task_id = s.next_task_id ∧
    (task_delete s task).heap_ptr = s.heap_ptr := by
  cases task with
  | none => exact ⟨rfl, rfl⟩
  | some a =>
    have hu := unlink_task_counters s a
    simp only [task_delete]
    split
    · exact ⟨hu.1, hu.2⟩
    · exact ⟨hu.1, hu.2⟩

lemma task_suspend_counters (s : KState) (task : Option Nat) :
    (task_suspend s task).next_task_id = s.next_task_id ∧
    (task_suspend s task).heap_ptr = s.heap_ptr := by
  unfold task_suspend
  split
  · exact ⟨rfl, rfl⟩
  · split
    · exact ⟨rfl, rfl⟩
    · split
      · exact ⟨rfl, rfl⟩
      · split
        · exact ⟨rfl, rfl⟩
        · exact ⟨rfl, rfl⟩

lemma task_resume_counters (s : KState) (task : Option Nat) :
    (task_resume s task).next_task_id = s.next_task_id ∧
    (task_resume s task).heap_ptr = s.heap_ptr := by
  unfold task_resume
  split
  · exact ⟨rfl, rfl⟩
  · split
    · exact ⟨rfl, rfl⟩
    · split
      · exact ⟨rfl, rfl⟩
      · exact ⟨rfl, rfl⟩

lemma task_sleep_counters (s : KState) (ms : Nat) :
    (task_sleep s ms).next_task_id = s.next_task_id ∧
    (task_sleep s ms).heap_ptr = s.heap_ptr := by
  unfold task_sleep
  split
  · exact ⟨rfl, rfl⟩
  · split
    · exact ⟨rfl, rfl⟩
    · exact ⟨rfl, rfl⟩

lemma task_yield_counters (s : KState) :
    (task_yield s).next_task_id = s.next_task_id ∧
    (task_yield s).heap_ptr = s.heap_ptr := by
  unfold task_yield
  split
  · exact ⟨rfl, rfl⟩
  · split
    · exact ⟨rfl, rfl⟩
    · exact ⟨rfl, rfl⟩

/-- The registry invariant driving the id-uniqueness proof: the bump
pointer stays inside the heap, the id counter starts at 1, and every
assigned id consumed at least one TCB-plus-minimal-stack allocation, so
the id counter is bounded by the heap capacity and can never wrap. -/
def RegInv (s : KState) : Prop :=
  s.heap_ptr ≤ TASK_HEAP_SIZE ∧ 1 ≤ s.next_task_id ∧
  (TASK_TCB_SIZE + TASK_MIN_STACK_SIZE) * (s.next_task_id - 1) ≤ s.heap_ptr

lemma reg_inv_of_counters (s s' : KState) (hinv : RegInv s)
    (hnext : s'.next_task_id = s.next_task_id)
    (hheap : s'.heap_ptr = s.heap_ptr) : RegInv s' := by
  obtain ⟨ia, ib, ic⟩ := hinv
  unfold RegInv
  rw [hnext, hheap]
  exact ⟨ia, ib, ic⟩

lemma pairwise_bound_mono (s s' : KState) (rest : List Op)
    (hnext : s'.next_task_id = s.next_task_id)
    (h : List.Pairwise (fun i j => i < j) (created_ids s' rest) ∧
         ∀ i ∈ created_ids s' rest, s'.next_task_id ≤ i) :
    List.Pairwise (fun i j => i < j) (created_ids s' rest) ∧
    ∀ i ∈ created_ids s' rest, s.next_task_id ≤ i := by
  refine ⟨h.1, fun i hi => ?_⟩
  rw [← hnext]
  exact h.2 i hi

lemma created_ids_spec (ops : List Op) :
    ∀ s : KState, RegInv s → (∀ op ∈ ops, op_size_ok op = true) →
      List.Pairwise (fun i j => i < j) (created_ids s ops) ∧
      ∀ i ∈ created_ids s ops, s.next_task_id ≤ i := by
  induction ops with
  | nil =>
    intro s _ _
    simp [created_ids]
  | cons op rest ih =>
    intro s hinv hok
    have hokrest : ∀ o ∈ rest, op_size_ok o = true :=
      fun o ho => hok o (List.mem_cons_of_mem _ ho)
    cases op with
    | create name entry priority stack_size =>
      have hsz : stack_size + TASK_HEAP_SIZE < 4294967296 := by
        have := hok _ (List.mem_cons_self _ _)
        simpa [op_size_ok] using this
      rcases hc : task_create s name entry priority stack_size with ⟨r, s'⟩
      cases r with
      | none =>
        have hids : created_ids s
            (Op.create name entry priority stack_size :: rest) =
            created_ids s' rest := by
          simp [created_ids, hc]
        obtain ⟨f1, f2, f3, f4, f5, f6⟩ :=
          task_create_fail_spec s name entry priority stack_size s' hc
        have hinv' : RegInv s' := by
          obtain ⟨ia, ib, ic⟩ := hinv
          unfold RegInv
          rw [f1]
          rcases f6 with he | ⟨hle, he⟩
          · rw [he]
            exact ⟨ia, ib, ic⟩
          · rw [he]
            refine ⟨hle, ib, ?_⟩
            simp only [TASK_TCB_SIZE, TASK_HEAP_SIZE, TASK_MIN_STACK_SIZE]
              at ia ic ⊢
            omega
        have hres := pairwise_bound_mono s s' rest f1 (ih s' hinv' hokrest)
        rw [hids]
        exact hres
      | some a =>
        obtain ⟨g1, g2, g3, g4, g5, g6⟩ :=
          task_create_success_spec s name entry priority stack_size a s' hc
        obtain ⟨ia, ib, ic⟩ := hinv
        have hnext_small : s.next_task_id ≤ 57 := by
          simp only [TASK_TCB_SIZE, TASK_HEAP_SIZE, TASK_MIN_STACK_SIZE]
            at ia ic
          omega
        have hnext' : s'.next_task_id = s.next_task_id + 1 := by
          rw [g5]
          apply Nat.mod_eq_of_lt
          omega
        have hheap' : s'.heap_ptr = s.heap_ptr + TASK_TCB_SIZE + stack_size := by
          rw [g3]
          simp only [TASK_TCB_SIZE, TASK_HEAP_SIZE, TASK_MIN_STACK_SIZE]
            at ia g2 hsz ⊢
          omega
        have hinv' : RegInv s' := by
          refine ⟨g4, ?_, ?_⟩
          · rw [hnext']
            omega
          · rw [hnext', hheap']
            simp only [TASK_TCB_SIZE, TASK_HEAP_SIZE, TASK_MIN_STACK_SIZE]
              at ia ic g1 ⊢
            omega
        rcases hmap : s'.tcbs a with _ | t
        · rw [hmap] at g6
          simp at g6
        · rw [hmap] at g6
          have g6' : t.task_id = s.next_task_id := by
            simpa using g6
          have hids : created_ids s
              (Op.create name entry priority stack_size :: rest) =
              t.task_id :: created_ids s' rest := by
            simp [created_ids, hc, hmap]
          obtain ⟨p1, p2⟩ := ih s' hinv' hokrest
          rw [hids]
          constructor
          · refine List.Pairwise.cons ?_ p1
            intro j hj
            have hj2 := p2 j hj
            rw [hnext'] at hj2
            rw [g6']
            omega
          · intro i hi
            rcases List.mem_cons.mp hi with hh | hh
            · rw [hh, g6']
            · have hi2 := p2 i hh
              rw [hnext'] at hi2
              omega
    | delete task =>
      have hcnt := task_delete_counters s task
      have hres := pairwise_bound_mono s _ rest hcnt.1
        (ih _ (reg_inv_of_counters s _ hinv hcnt.1 hcnt.2) hokrest)
      simpa [created_ids, step] using hres
    | suspend task =>
      have hcnt := task_suspend_counters s task
      have hres := pairwise_bound_mono s _ rest hcnt.1
        (ih _ (reg_inv_of_counters s _ hinv hcnt.1 hcnt.2) hokrest)
      simpa [created_ids, step] using hres
    | resume task =>
      have hcnt := task_resume_counters s task
      have hres := pairwise_bound_mono s _ rest hcnt.1
        (ih _ (reg_inv_of_counters s _ hinv hcnt.1 hcnt.2) hokrest)
      simpa [created_ids, step] using hres
    | sleep ms =>
      have hcnt := task_sleep_counters s ms
      have hres := pairwise_bound_mono s _ rest hcnt.1
        (ih _ (reg_inv_of_counters s _ hinv hcnt.1 hcnt.2) hokrest)
      simpa [created_ids, step] using hres
    | yield =>
      have hcnt := task_yield_counters s
      have hres := pairwise_bound_mono s _ rest hcnt.1
        (ih _ (reg_inv_of_counters s _ hinv hcnt.1 hcnt.2) hokrest)
      simpa [created_ids, step] using hres
    | set_current task =>
      have hres := pairwise_bound_mono s (task_set_current s task) rest rfl
        (ih (task_set_current s task)
          (reg_inv_of_counters s (task_set_current s task) hinv rfl rfl)
          hokrest)
      simpa [created_ids, step] using hres
    | tick =>
      have hres := pairwise_bound_mono s (timer_tick_callback s) rest rfl
        (ih (timer_tick_callback s)
          (reg_inv_of_counters s (timer_tick_callback s) hinv rfl rfl)
          hokrest)
      simpa [created_ids, step] using hres

/-- C5: along any operation sequence from boot whose create requests do
not overflow the allocator's `uint32_t` bounds check (requests that would
overflow also make the C stack-frame initialisation write out of bounds,
which is undefined behaviour), the ids handed out by successful creates
are pairwise strictly increasing in creation order: every two created
tasks get distinct ids, each new id exceeds all earlier ones, and no id
is reused after a deletion. -/
theorem c5_task_ids_strictly_increasing (ops : List Op)
    (hops : ∀ op ∈ ops, op_size_ok op = true) :
    List.Pairwise (fun i j => i < j) (created_ids initState ops) :=
  (created_ids_spec ops initState
    (by
      unfold RegInv
      simp [initState, TASK_TCB_SIZE, TASK_MIN_STACK_SIZE, TASK_HEAP_SIZE])
    hops).1

/-- Witness for C5 on a concrete sequence with a deletion between
creates. -/
theorem c5_task_ids_strictly_increasing_witness :
    (∀ op ∈ c5_ops, op_size_ok op = true) ∧
    List.Pairwise (fun i j => i < j) (created_ids initState c5_ops) :=
  ⟨by decide, c5_task_ids_strictly_increasing c5_ops (by decide)⟩
